import Mathlib

/-
Shallow embedding of the real-time messaging core of the chat-backend-spark
repository (Socket.IO handlers in the socket module, the message and request
HTTP controllers, and the Mongoose Conversation / Message / ChatRequest
models).  User ids, socket ids, conversation ids and message ids are
modelled as naturals; the Mongo collections as lists; the JS `Map` of
connected users as an association list with overwrite-on-set semantics.
-/

/-- Message delivery status (the `status` enum of the Message model). -/
inductive Status where
  | sent
  | delivered
  | read
deriving DecidableEq, Repr

/-- Chat-request status (the `status` enum of the ChatRequest model). -/
inductive ReqStatus where
  | pending
  | accepted
  | rejected
deriving DecidableEq, Repr

/-- A persisted Message row (models/Message.js). -/
structure Message where
  id : Nat
  conversationId : Nat
  sender : Nat
  receiver : Nat
  type : String
  content : String
  status : Status
deriving DecidableEq, Repr

/-- A persisted Conversation row (the Conversation model): two participants,
a nullable last-message pointer, and a per-user unread counter map. -/
structure Conversation where
  id : Nat
  participants : List Nat
  lastMessage : Option Nat
  unreadCount : List (Nat × Nat)
deriving DecidableEq, Repr

/-- A persisted ChatRequest row (models/ChatRequest.js). -/
structure ChatRequest where
  id : Nat
  sender : Nat
  receiver : Nat
  status : ReqStatus
deriving DecidableEq, Repr

/-- The durable store: the three Mongo collections plus fresh-id counters
standing for Mongo ObjectId generation. -/
structure DB where
  conversations : List Conversation
  messages : List Message
  requests : List ChatRequest
  nextConvId : Nat
  nextMsgId : Nat
deriving DecidableEq, Repr

/-- `connectedUsers`: the module-level JS `Map { userId: socketId }` of the
socket module.  An association list; `mapSet` overwrites like `Map.set`. -/
abbrev ConnectedUsers := List (Nat × Nat)

/-- JS `Map.get`: the binding of the key, if any. -/
def mapGet (m : ConnectedUsers) (k : Nat) : Option Nat :=
  match m with
  | [] => none
  | (k2, v) :: rest => if k2 == k then some v else mapGet rest k

/-- JS `Map.set`: overwrite the binding of the key, or add it. -/
def mapSet (m : ConnectedUsers) (k v : Nat) : ConnectedUsers :=
  match m with
  | [] => [(k, v)]
  | (k2, v2) :: rest => if k2 == k then (k, v) :: rest else (k2, v2) :: mapSet rest k v

/-- `conversation.unreadCount.get(u) || 0`. -/
def unreadGet (m : List (Nat × Nat)) (k : Nat) : Nat :=
  (mapGet m k).getD 0

/-- Outbound Socket.IO events emitted by the handlers.  Events addressed to a
single socket carry that socket id; `user_online` is a broadcast. -/
inductive Event where
  | user_online (userId : Nat)
  | receive_message (socketId : Nat) (msg : Message) (conversationId : Nat)
  | message_sent (socketId : Nat) (msg : Message) (conversationId : Nat)
  | message_error (socketId : Nat) (error : String)
  | message_status_updated (socketId : Nat) (messageId : Nat) (status : Status)
  | messages_read (socketId : Nat) (conversationId : Nat) (readBy : Nat)
deriving DecidableEq, Repr

/-- HTTP controller outcome (sendSuccess / sendError with a status code). -/
inductive HttpRes where
  | success (code : Nat) (msg : String)
  | failure (code : Nat) (msg : String)
deriving DecidableEq, Repr

/-- `Conversation.findById`. -/
def findConvById (db : DB) (cid : Nat) : Option Conversation :=
  db.conversations.find? (fun c => c.id == cid)

/-- `Conversation.findOne({ participants: { $all: [a, b] } })`. -/
def findConvByPair (db : DB) (a b : Nat) : Option Conversation :=
  db.conversations.find? (fun c => c.participants.contains a && c.participants.contains b)

/-- `Message.findById`. -/
def findMsgById (db : DB) (mid : Nat) : Option Message :=
  db.messages.find? (fun m => m.id == mid)

/-- Persist an updated Conversation document (`conversation.save()`):
replace the row with the matching id. -/
def updateConv (db : DB) (c : Conversation) : DB :=
  { db with conversations := db.conversations.map (fun x => if x.id == c.id then c else x) }

/-- Persist an updated Message document (`message.save()` /
`findByIdAndUpdate`): replace the row with the matching id. -/
def updateMsg (db : DB) (m : Message) : DB :=
  { db with messages := db.messages.map (fun x => if x.id == m.id then m else x) }

/-- The allowed message types (the `type` enum of the Message model). -/
def allowedTypes : List String := ["text", "image", "gif", "sticker"]

/-- Payload of the `send_message` socket event.  A missing `receiverId` is
`none`; a missing `type` or `content` is the empty string (both are falsy in
the JS check `!receiverId || !type || !content`). -/
structure SendMessageData where
  receiverId : Option Nat
  type : String
  content : String
  conversationId : Option Nat
deriving DecidableEq, Repr

/-- The `send_message` handler of the socket module, for an authenticated
sender on socket `senderSocketId`.  Follows the JS control flow line by
line: falsy-field validation, conversation find-or-create (`findById` when a
conversationId is supplied, otherwise `$all` pair lookup then `create`),
message creation with `status: 'sent'` (the model's type enum rejects a type
outside `allowedTypes`, caught by the handler's try/catch after any
conversation creation already persisted), conversation bookkeeping
(lastMessage, receiver unread + 1), then the online check: if the receiver
has a socket, emit `receive_message` carrying the message as it is at that
point (status sent) and afterwards persist status delivered; finally emit
`message_sent` to the sender with the current message. -/
def sendMessageHandler (cu : ConnectedUsers) (db : DB) (senderId senderSocketId : Nat)
    (data : SendMessageData) : DB × List Event :=
  match data.receiverId with
  | none => (db, [Event.message_error senderSocketId "Missing required fields"])
  | some receiverId =>
    if data.type == "" || data.content == "" then
      (db, [Event.message_error senderSocketId "Missing required fields"])
    else
      let found : Option Conversation × DB :=
        match data.conversationId with
        | some cid => (findConvById db cid, db)
        | none =>
          match findConvByPair db senderId receiverId with
          | some c => (some c, db)
          | none =>
            let c : Conversation :=
              { id := db.nextConvId, participants := [senderId, receiverId],
                lastMessage := none, unreadCount := [] }
            (some c, { db with conversations := db.conversations ++ [c],
                               nextConvId := db.nextConvId + 1 })
      match found with
      | (none, db1) => (db1, [Event.message_error senderSocketId "Failed to send message"])
      | (some conv, db1) =>
        if allowedTypes.contains data.type then
          let msg : Message :=
            { id := db1.nextMsgId, conversationId := conv.id, sender := senderId,
              receiver := receiverId, type := data.type, content := data.content,
              status := Status.sent }
          let db2 := { db1 with messages := db1.messages ++ [msg],
                                nextMsgId := db1.nextMsgId + 1 }
          let conv2 := { conv with lastMessage := some msg.id,
                                   unreadCount := mapSet conv.unreadCount receiverId
                                     (unreadGet conv.unreadCount receiverId + 1) }
          let db3 := updateConv db2 conv2
          match mapGet cu receiverId with
          | some receiverSocketId =>
            let msg2 := { msg with status := Status.delivered }
            (updateMsg db3 msg2,
             [Event.receive_message receiverSocketId msg conv.id,
              Event.message_sent senderSocketId msg2 conv.id])
          | none =>
            (db3, [Event.message_sent senderSocketId msg conv.id])
        else
          (db1, [Event.message_error senderSocketId "Failed to send message"])

/-- The `message_delivered` handler: `Message.findByIdAndUpdate(messageId,
{ status: 'delivered' })`, unconditionally, then a `message_status_updated`
push to the sender's socket when the sender is connected. -/
def messageDeliveredHandler (cu : ConnectedUsers) (db : DB) (messageId : Nat) :
    DB × List Event :=
  match findMsgById db messageId with
  | none => (db, [])
  | some m =>
    let m2 := { m with status := Status.delivered }
    (updateMsg db m2,
     match mapGet cu m2.sender with
     | some senderSocketId =>
       [Event.message_status_updated senderSocketId messageId Status.delivered]
     | none => [])

/-- Payload of the `message_read` socket event. -/
structure ReadData where
  messageId : Option Nat
  conversationId : Option Nat
deriving DecidableEq, Repr

/-- The `message_read` handler for the authenticated user `userId`.  The
messageId branch sets the status to read unconditionally (no receiver
check); the conversationId branch runs `Message.updateMany({conversationId,
receiver: userId, status: {$in: ['sent','delivered']}}, {status: 'read'})`
and then emits `messages_read` to the connected sender of every message of
the conversation received by `userId`.  No unread counter is touched. -/
def messageReadHandler (cu : ConnectedUsers) (db : DB) (userId : Nat)
    (data : ReadData) : DB × List Event :=
  match data.messageId with
  | some mid =>
    match findMsgById db mid with
    | none => (db, [])
    | some m =>
      let m2 := { m with status := Status.read }
      (updateMsg db m2,
       match mapGet cu m2.sender with
       | some senderSocketId =>
         [Event.message_status_updated senderSocketId mid Status.read]
       | none => [])
  | none =>
    match data.conversationId with
    | none => (db, [])
    | some cid =>
      let db2 := { db with messages := db.messages.map (fun m =>
        if m.conversationId == cid && m.receiver == userId &&
           (m.status == Status.sent || m.status == Status.delivered)
        then { m with status := Status.read } else m) }
      let evs := (db2.messages.filter
          (fun m => m.conversationId == cid && m.receiver == userId)).filterMap
        (fun m => (mapGet cu m.sender).map
          (fun senderSocketId => Event.messages_read senderSocketId cid userId))
      (db2, evs)

/-- The connection handler: record the socket in `connectedUsers`
(overwriting any previous socket of the same user) and broadcast
`user_online`.  It pushes no stored messages. -/
def connectionHandler (cu : ConnectedUsers) (userId socketId : Nat) :
    ConnectedUsers × List Event :=
  (mapSet cu userId socketId, [Event.user_online userId])

/-- `GET /api/messages/:conversationId` (messageController.getMessages):
404 when the conversation is unknown, 403 when the caller is not a
participant; otherwise every message of the conversation received by the
caller with status sent is advanced to delivered.  The controller performs
no socket emission, hence the always-empty event component. -/
def getMessages (db : DB) (userId conversationId : Nat) : DB × HttpRes × List Event :=
  match findConvById db conversationId with
  | none => (db, HttpRes.failure 404 "Conversation not found", [])
  | some conv =>
    if conv.participants.contains userId then
      let db2 := { db with messages := db.messages.map (fun m =>
        if m.conversationId == conversationId && m.receiver == userId &&
           m.status == Status.sent
        then { m with status := Status.delivered } else m) }
      (db2, HttpRes.success 200 "Messages retrieved successfully", [])
    else
      (db, HttpRes.failure 403 "Not authorized to access these messages", [])

/-- `PUT /api/messages/:conversationId/read`
(messageController.markMessagesAsRead): 404 / 403 guards, then
`updateMany({conversationId, receiver: userId, status: {$in:
['sent','delivered']}}, {status: 'read'})` and the caller's unread counter
set to 0.  No socket emission. -/
def markMessagesAsRead (db : DB) (userId conversationId : Nat) :
    DB × HttpRes × List Event :=
  match findConvById db conversationId with
  | none => (db, HttpRes.failure 404 "Conversation not found", [])
  | some conv =>
    if conv.participants.contains userId then
      let db2 := { db with messages := db.messages.map (fun m =>
        if m.conversationId == conversationId && m.receiver == userId &&
           (m.status == Status.sent || m.status == Status.delivered)
        then { m with status := Status.read } else m) }
      let conv2 := { conv with unreadCount := mapSet conv.unreadCount userId 0 }
      (updateConv db2 conv2, HttpRes.success 200 "Messages marked as read", [])
    else
      (db, HttpRes.failure 403 "Not authorized", [])

/-- `PUT /api/requests/:requestId/accept` (requestController.acceptRequest):
404 when the request is unknown, 403 when the caller is not its receiver,
400 when it is not pending; otherwise set it accepted and unconditionally
`Conversation.create({ participants: [sender, receiver] })`. -/
def acceptRequest (db : DB) (userId requestId : Nat) : DB × HttpRes :=
  match db.requests.find? (fun r => r.id == requestId) with
  | none => (db, HttpRes.failure 404 "Request not found")
  | some r =>
    if r.receiver == userId then
      if r.status == ReqStatus.pending then
        let r2 := { r with status := ReqStatus.accepted }
        let reqs2 := db.requests.map (fun x => if x.id == r2.id then r2 else x)
        let db2 := { db with requests := reqs2 }
        let c : Conversation :=
          { id := db2.nextConvId, participants := [r.sender, r.receiver],
            lastMessage := none, unreadCount := [] }
        ({ db2 with conversations := db2.conversations ++ [c],
                    nextConvId := db2.nextConvId + 1 },
         HttpRes.success 200 "Request accepted successfully")
      else
        (db, HttpRes.failure 400 "Request already processed")
    else
      (db, HttpRes.failure 403 "Not authorized to accept this request")

/-- Number of Conversation rows containing both users (the unordered pair
count of the uniqueness invariant). -/
def pairConvCount (db : DB) (a b : Nat) : Nat :=
  db.conversations.countP (fun c => c.participants.contains a && c.participants.contains b)

/-- Freshness of the id counters: every stored row's id is below the
corresponding counter (Mongo ObjectIds are never reused). -/
def DB.wf (db : DB) : Prop :=
  (∀ c ∈ db.conversations, c.id < db.nextConvId) ∧
  (∀ m ∈ db.messages, m.id < db.nextMsgId)

instance (db : DB) : Decidable db.wf := by
  unfold DB.wf
  infer_instance

/-- True when the event list contains a `receive_message` addressed to the
given socket. -/
def receivesOn (evs : List Event) (sid : Nat) : Bool :=
  evs.any (fun e => match e with
    | Event.receive_message s _ _ => s == sid
    | _ => false)

/-- True when the event is a `message_error`. -/
def isMessageError (e : Event) : Bool :=
  match e with
  | Event.message_error _ _ => true
  | _ => false

/-- Pointwise specification of the conversation-scope read mark: a message
of the conversation received by `uid` with status sent or delivered becomes
read; any other message is untouched. -/
def readTransition (uid cid : Nat) (m m2 : Message) : Prop :=
  if m.conversationId = cid ∧ m.receiver = uid ∧
     (m.status = Status.sent ∨ m.status = Status.delivered)
  then m2 = { m with status := Status.read }
  else m2 = m

/-- Pointwise specification of the getMessages side effect: a message of the
conversation received by `uid` with status sent becomes delivered; any other
message is untouched. -/
def deliveredTransition (uid cid : Nat) (m m2 : Message) : Prop :=
  if m.conversationId = cid ∧ m.receiver = uid ∧ m.status = Status.sent
  then m2 = { m with status := Status.delivered }
  else m2 = m

/-- The statuses carried by the receive_message events of an event list, in
order. -/
def receiveStatuses (evs : List Event) : List Status :=
  evs.filterMap (fun e => match e with
    | Event.receive_message _ m _ => some m.status
    | _ => none)

/-- The empty store. -/
def emptyDB : DB :=
  { conversations := [], messages := [], requests := [], nextConvId := 0, nextMsgId := 0 }

/-- A store with one conversation between users 1 and 2 and one message from
1 to 2 whose status is already read. -/
def exReadDB : DB :=
  { conversations := [{ id := 0, participants := [1, 2], lastMessage := some 0,
                        unreadCount := [] }],
    messages := [{ id := 0, conversationId := 0, sender := 1, receiver := 2,
                   type := "text", content := "hi", status := Status.read }],
    requests := [], nextConvId := 1, nextMsgId := 1 }

/-- A store with one conversation between users 1 and 2, 3 unread for user 2,
and one sent message from 1 to 2. -/
def exUnreadDB : DB :=
  { conversations := [{ id := 0, participants := [1, 2], lastMessage := some 0,
                        unreadCount := [(2, 3)] }],
    messages := [{ id := 0, conversationId := 0, sender := 1, receiver := 2,
                   type := "text", content := "hi", status := Status.sent }],
    requests := [], nextConvId := 1, nextMsgId := 1 }

/-- exUnreadDB plus a pending chat request from user 1 to user 2. -/
def exRequestDB : DB :=
  { exUnreadDB with
    requests := [{ id := 0, sender := 1, receiver := 2, status := ReqStatus.pending }] }

theorem mapGet_mapSet_self (m : ConnectedUsers) (k v : Nat) :
    mapGet (mapSet m k v) k = some v := by
  induction m with
  | nil => simp [mapGet, mapSet]
  | cons p rest ih =>
    by_cases h : p.1 = k
    · simp [mapGet, mapSet, h]
    · have hb : (p.1 == k) = false := beq_eq_false_iff_ne.mpr h
      simp [mapGet, mapSet, hb, ih]

theorem map_update_of_ne {α : Type} (f : α → Nat) (c : α) (l : List α)
    (h : ∀ x ∈ l, f x ≠ f c) :
    l.map (fun x => if f x == f c then c else x) = l := by
  induction l with
  | nil => rfl
  | cons a t ih =>
    have ha : ¬ (f a == f c) = true := by
      simp [beq_eq_false_iff_ne.mpr (h a (by simp))]
    rw [List.map_cons, if_neg ha, ih (fun x hx => h x (List.mem_cons_of_mem _ hx))]

theorem find?_map_update {α : Type} (f : α → Nat) (l : List α) (k : Nat) (m c : α)
    (hm : l.find? (fun x => f x == k) = some m) (hck : f c = k) :
    (l.map (fun x => if f x == f c then c else x)).find? (fun x => f x == k) = some c := by
  induction l with
  | nil => simp at hm
  | cons a t ih =>
    by_cases hak : f a = k
    · have h1 : (f a == f c) = true := by rw [hck]; exact beq_iff_eq.mpr hak
      have h2 : (f c == k) = true := beq_iff_eq.mpr hck
      simp only [List.map_cons, h1, if_true]
      exact List.find?_cons_of_pos _ h2
    · have h1 : (f a == k) = false := beq_eq_false_iff_ne.mpr hak
      have h1b : (f a == f c) = false := by rw [hck]; exact h1
      have ht : t.find? (fun x => f x == k) = some m := by
        rwa [List.find?_cons_of_neg _ (by simp [h1])] at hm
      simp only [List.map_cons, h1b, Bool.false_eq_true, if_false]
      rw [List.find?_cons_of_neg _ (by simp [h1])]
      exact ih ht

theorem find?_append_none {α : Type} (p : α → Bool) (l1 l2 : List α)
    (h : ∀ x ∈ l1, p x = false) :
    (l1 ++ l2).find? p = l2.find? p := by
  rw [List.find?_append, List.find?_eq_none.mpr (fun x hx => by simp [h x hx])]
  rfl

theorem find?_key_eq {α : Type} (f : α → Nat) (l : List α) (k : Nat) (m : α)
    (h : l.find? (fun x => f x == k) = some m) : f m = k := by
  have hp := List.find?_some h
  simpa using hp

theorem messageDelivered_find (cu : ConnectedUsers) (db : DB) (mid : Nat) (m : Message)
    (h : findMsgById db mid = some m) :
    findMsgById (messageDeliveredHandler cu db mid).1 mid
      = some { m with status := Status.delivered } := by
  have h' : db.messages.find? (fun x => x.id == mid) = some m := h
  have hmid : m.id = mid := find?_key_eq Message.id db.messages mid m h'
  simp only [messageDeliveredHandler, h]
  simp only [findMsgById, updateMsg]
  exact find?_map_update Message.id db.messages mid m
    { m with status := Status.delivered } h' hmid

/-- C1: the claim says a delivered-mark (socket event message_delivered) on
a message whose persisted status is already read leaves the status read.
In the code the handler runs an unconditional
`Message.findByIdAndUpdate(messageId, { status: 'delivered' })`: on a store
whose message 0 is read, the handler regresses it to delivered. -/
theorem C1_counterexample :
    (findMsgById exReadDB 0).map Message.status = some Status.read ∧
    (findMsgById (messageDeliveredHandler [] exReadDB 0).1 0).map Message.status
      = some Status.delivered := by
  constructor <;> rfl

/-- C1 (amended): the delivered-mark operation unconditionally sets the
status of an existing message to delivered — including on an already-read
message, which is regressed to delivered rather than left at read — and
invoking it twice yields status delivered both times, with no error event. -/
theorem C1_theorem (cu : ConnectedUsers) (db : DB) (mid : Nat) (m : Message)
    (h : findMsgById db mid = some m) :
    (findMsgById (messageDeliveredHandler cu db mid).1 mid).map Message.status
      = some Status.delivered ∧
    (findMsgById (messageDeliveredHandler cu
        (messageDeliveredHandler cu db mid).1 mid).1 mid).map Message.status
      = some Status.delivered ∧
    ∀ e ∈ (messageDeliveredHandler cu db mid).2, isMessageError e = false := by
  have h1 := messageDelivered_find cu db mid m h
  have h2 := messageDelivered_find cu (messageDeliveredHandler cu db mid).1 mid
    { m with status := Status.delivered } h1
  refine ⟨by rw [h1]; rfl, by rw [h2]; rfl, ?_⟩
  simp only [messageDeliveredHandler, h]
  cases hcu : mapGet cu ({ m with status := Status.delivered } : Message).sender with
  | none => simp
  | some sid => simp [isMessageError]

/-- C1 witness: the amended theorem applied to the read message of exReadDB. -/
theorem C1_witness :
    findMsgById exReadDB 0 = some ⟨0, 0, 1, 2, "text", "hi", Status.read⟩ ∧
    ((findMsgById (messageDeliveredHandler [] exReadDB 0).1 0).map Message.status
      = some Status.delivered ∧
    (findMsgById (messageDeliveredHandler []
        (messageDeliveredHandler [] exReadDB 0).1 0).1 0).map Message.status
      = some Status.delivered ∧
    ∀ e ∈ (messageDeliveredHandler [] exReadDB 0).2, isMessageError e = false) :=
  ⟨rfl, C1_theorem [] exReadDB 0 ⟨0, 0, 1, 2, "text", "hi", Status.read⟩ rfl⟩

theorem sendMessage_pair_none_offline (cu : ConnectedUsers) (db : DB) (a sa b : Nat)
    (t c : String) (ht : (t == "") = false) (hc : (c == "") = false)
    (hta : t ∈ allowedTypes)
    (hfc : findConvByPair db a b = none) (hcu : mapGet cu b = none) :
    sendMessageHandler cu db a sa ⟨some b, t, c, none⟩ =
      (⟨(db.conversations ++ [(⟨db.nextConvId, [a, b], none, []⟩ : Conversation)]).map
          (fun x : Conversation => if x.id == db.nextConvId then
            ⟨db.nextConvId, [a, b], some db.nextMsgId, [(b, 1)]⟩ else x),
        db.messages ++ [⟨db.nextMsgId, db.nextConvId, a, b, t, c, Status.sent⟩],
        db.requests, db.nextConvId + 1, db.nextMsgId + 1⟩,
       [Event.message_sent sa ⟨db.nextMsgId, db.nextConvId, a, b, t, c, Status.sent⟩
          db.nextConvId]) := by
  simp [sendMessageHandler, ht, hc, hfc, hcu, hta, updateConv, unreadGet, mapGet, mapSet]

theorem sendMessage_pair_none_online (cu : ConnectedUsers) (db : DB) (a sa b rsid : Nat)
    (t c : String) (ht : (t == "") = false) (hc : (c == "") = false)
    (hta : t ∈ allowedTypes)
    (hfc : findConvByPair db a b = none) (hcu : mapGet cu b = some rsid) :
    sendMessageHandler cu db a sa ⟨some b, t, c, none⟩ =
      (⟨(db.conversations ++ [(⟨db.nextConvId, [a, b], none, []⟩ : Conversation)]).map
          (fun x : Conversation => if x.id == db.nextConvId then
            ⟨db.nextConvId, [a, b], some db.nextMsgId, [(b, 1)]⟩ else x),
        (db.messages ++ [(⟨db.nextMsgId, db.nextConvId, a, b, t, c, Status.sent⟩ : Message)]).map
          (fun x : Message => if x.id == db.nextMsgId then
            ⟨db.nextMsgId, db.nextConvId, a, b, t, c, Status.delivered⟩ else x),
        db.requests, db.nextConvId + 1, db.nextMsgId + 1⟩,
       [Event.receive_message rsid ⟨db.nextMsgId, db.nextConvId, a, b, t, c, Status.sent⟩
          db.nextConvId,
        Event.message_sent sa ⟨db.nextMsgId, db.nextConvId, a, b, t, c, Status.delivered⟩
          db.nextConvId]) := by
  simp [sendMessageHandler, ht, hc, hfc, hcu, hta, updateConv, updateMsg, unreadGet,
    mapGet, mapSet]

theorem sendMessage_pair_some_offline (cu : ConnectedUsers) (db : DB) (a sa b : Nat)
    (conv : Conversation) (t c : String) (ht : (t == "") = false) (hc : (c == "") = false)
    (hta : t ∈ allowedTypes)
    (hfc : findConvByPair db a b = some conv) (hcu : mapGet cu b = none) :
    sendMessageHandler cu db a sa ⟨some b, t, c, none⟩ =
      (⟨db.conversations.map
          (fun x : Conversation => if x.id == conv.id then
            Conversation.mk conv.id conv.participants (some db.nextMsgId)
              (mapSet conv.unreadCount b (unreadGet conv.unreadCount b + 1))
            else x),
        db.messages ++ [⟨db.nextMsgId, conv.id, a, b, t, c, Status.sent⟩],
        db.requests, db.nextConvId, db.nextMsgId + 1⟩,
       [Event.message_sent sa ⟨db.nextMsgId, conv.id, a, b, t, c, Status.sent⟩ conv.id]) := by
  simp [sendMessageHandler, ht, hc, hfc, hcu, hta, updateConv, unreadGet, mapGet, mapSet]

theorem sendMessage_pair_some_online (cu : ConnectedUsers) (db : DB) (a sa b rsid : Nat)
    (conv : Conversation) (t c : String) (ht : (t == "") = false) (hc : (c == "") = false)
    (hta : t ∈ allowedTypes)
    (hfc : findConvByPair db a b = some conv) (hcu : mapGet cu b = some rsid) :
    sendMessageHandler cu db a sa ⟨some b, t, c, none⟩ =
      (⟨db.conversations.map
          (fun x : Conversation => if x.id == conv.id then
            Conversation.mk conv.id conv.participants (some db.nextMsgId)
              (mapSet conv.unreadCount b (unreadGet conv.unreadCount b + 1))
            else x),
        (db.messages ++ [(⟨db.nextMsgId, conv.id, a, b, t, c, Status.sent⟩ : Message)]).map
          (fun x : Message => if x.id == db.nextMsgId then
            ⟨db.nextMsgId, conv.id, a, b, t, c, Status.delivered⟩ else x),
        db.requests, db.nextConvId, db.nextMsgId + 1⟩,
       [Event.receive_message rsid ⟨db.nextMsgId, conv.id, a, b, t, c, Status.sent⟩ conv.id,
        Event.message_sent sa ⟨db.nextMsgId, conv.id, a, b, t, c, Status.delivered⟩
          conv.id]) := by
  simp [sendMessageHandler, ht, hc, hfc, hcu, hta, updateConv, updateMsg, unreadGet,
    mapGet, mapSet]
theorem map_update_of_ne_k {α : Type} (f : α → Nat) (k : Nat) (c : α) (l : List α)
    (h : ∀ x ∈ l, f x ≠ k) :
    l.map (fun x => if f x == k then c else x) = l := by
  induction l with
  | nil => rfl
  | cons a t ih =>
    have ha : ¬ (f a == k) = true := by
      simp [beq_eq_false_iff_ne.mpr (h a (by simp))]
    rw [List.map_cons, if_neg ha, ih (fun x hx => h x (List.mem_cons_of_mem _ hx))]

/-- C2: for a store whose ids are fresh and holding no conversation between
users a and b, a first valid text send_message from a to b creates exactly
one Conversation for the unordered pair (pair count 1, one new row), and a
second valid send from b to a with no conversationId reuses that
Conversation: the pair count remains 1 and no conversation row is added. -/
theorem C2_theorem (cu : ConnectedUsers) (db : DB) (a b sa sb : Nat)
    (hwf : ∀ x ∈ db.conversations, x.id < db.nextConvId)
    (h0 : pairConvCount db a b = 0)
    (s1 s2 : String) (hs1 : s1 ≠ "") (hs2 : s2 ≠ "") :
    pairConvCount (sendMessageHandler cu db a sa ⟨some b, "text", s1, none⟩).1 a b = 1 ∧
    (sendMessageHandler cu db a sa ⟨some b, "text", s1, none⟩).1.conversations.length
      = db.conversations.length + 1 ∧
    pairConvCount (sendMessageHandler cu
        (sendMessageHandler cu db a sa ⟨some b, "text", s1, none⟩).1 b sb
        ⟨some a, "text", s2, none⟩).1 a b = 1 ∧
    (sendMessageHandler cu (sendMessageHandler cu db a sa ⟨some b, "text", s1, none⟩).1 b sb
        ⟨some a, "text", s2, none⟩).1.conversations.length
      = (sendMessageHandler cu db a sa ⟨some b, "text", s1, none⟩).1.conversations.length := by
  have ht : (("text" : String) == "") = false := by decide
  have hc1 : (s1 == "") = false := beq_eq_false_iff_ne.mpr hs1
  have hc2 : (s2 == "") = false := beq_eq_false_iff_ne.mpr hs2
  have hta : ("text" : String) ∈ allowedTypes := by decide
  have h0' : db.conversations.countP
      (fun c => c.participants.contains a && c.participants.contains b) = 0 := h0
  have hall : ∀ x ∈ db.conversations,
      (x.participants.contains a && x.participants.contains b) = false := by
    intro x hx
    exact eq_false_of_ne_true (List.countP_eq_zero.mp h0' x hx)
  have hfc1 : findConvByPair db a b = none := by
    simp only [findConvByPair]
    refine List.find?_eq_none.mpr (fun x hx => ?_)
    rw [hall x hx]
    simp
  have key1 : (sendMessageHandler cu db a sa ⟨some b, "text", s1, none⟩).1.conversations
      = db.conversations ++ [⟨db.nextConvId, [a, b], some db.nextMsgId, [(b, 1)]⟩] := by
    cases hcu : mapGet cu b with
    | none =>
      rw [sendMessage_pair_none_offline cu db a sa b _ _ ht hc1 hta hfc1 hcu]
      dsimp only
      rw [List.map_append,
        map_update_of_ne_k Conversation.id db.nextConvId _ _
          (fun x hx => Nat.ne_of_lt (hwf x hx))]
      simp
    | some rsid =>
      rw [sendMessage_pair_none_online cu db a sa b rsid _ _ ht hc1 hta hfc1 hcu]
      dsimp only
      rw [List.map_append,
        map_update_of_ne_k Conversation.id db.nextConvId _ _
          (fun x hx => Nat.ne_of_lt (hwf x hx))]
      simp
  have hcount1 : pairConvCount
      (sendMessageHandler cu db a sa ⟨some b, "text", s1, none⟩).1 a b = 1 := by
    simp only [pairConvCount, key1, List.countP_append, h0']
    simp
  have hlen1 : (sendMessageHandler cu db a sa ⟨some b, "text", s1, none⟩).1.conversations.length
      = db.conversations.length + 1 := by
    rw [key1]
    simp
  have hpre : ∀ x ∈ db.conversations,
      (x.participants.contains b && x.participants.contains a) = false := by
    intro x hx
    rw [Bool.and_comm]
    exact hall x hx
  have hfc2 : findConvByPair (sendMessageHandler cu db a sa ⟨some b, "text", s1, none⟩).1 b a
      = some ⟨db.nextConvId, [a, b], some db.nextMsgId, [(b, 1)]⟩ := by
    simp only [findConvByPair, key1]
    rw [find?_append_none _ _ _ hpre]
    exact List.find?_cons_of_pos _ (by simp)
  have hcount2 : pairConvCount (sendMessageHandler cu
        (sendMessageHandler cu db a sa ⟨some b, "text", s1, none⟩).1 b sb
        ⟨some a, "text", s2, none⟩).1 a b = 1 ∧
      (sendMessageHandler cu (sendMessageHandler cu db a sa ⟨some b, "text", s1, none⟩).1 b sb
        ⟨some a, "text", s2, none⟩).1.conversations.length
      = (sendMessageHandler cu db a sa ⟨some b, "text", s1, none⟩).1.conversations.length := by
    cases hcu2 : mapGet cu a with
    | none =>
      rw [sendMessage_pair_some_offline cu _ b sb a _ _ _ ht hc2 hta hfc2 hcu2]
      dsimp only
      rw [key1, List.map_append,
        map_update_of_ne_k Conversation.id db.nextConvId _ _
          (fun x hx => Nat.ne_of_lt (hwf x hx))]
      constructor
      · simp only [pairConvCount, List.countP_append, h0']
        simp
      · simp
    | some rsid =>
      rw [sendMessage_pair_some_online cu _ b sb a rsid _ _ _ ht hc2 hta hfc2 hcu2]
      dsimp only
      rw [key1, List.map_append,
        map_update_of_ne_k Conversation.id db.nextConvId _ _
          (fun x hx => Nat.ne_of_lt (hwf x hx))]
      constructor
      · simp only [pairConvCount, List.countP_append, h0']
        simp
      · simp
  exact ⟨hcount1, hlen1, hcount2.1, hcount2.2⟩

/-- C2 witness: the C2 scenario run concretely from the empty store with
users 1 and 2. -/
theorem C2_witness :
    (∀ x ∈ emptyDB.conversations, x.id < emptyDB.nextConvId) ∧
    pairConvCount emptyDB 1 2 = 0 ∧ ("hi" : String) ≠ "" ∧ ("yo" : String) ≠ "" ∧
    (pairConvCount (sendMessageHandler [] emptyDB 1 10 ⟨some 2, "text", "hi", none⟩).1 1 2 = 1 ∧
    (sendMessageHandler [] emptyDB 1 10 ⟨some 2, "text", "hi", none⟩).1.conversations.length
      = emptyDB.conversations.length + 1 ∧
    pairConvCount (sendMessageHandler []
        (sendMessageHandler [] emptyDB 1 10 ⟨some 2, "text", "hi", none⟩).1 2 11
        ⟨some 1, "text", "yo", none⟩).1 1 2 = 1 ∧
    (sendMessageHandler [] (sendMessageHandler [] emptyDB 1 10 ⟨some 2, "text", "hi", none⟩).1 2 11
        ⟨some 1, "text", "yo", none⟩).1.conversations.length
      = (sendMessageHandler [] emptyDB 1 10 ⟨some 2, "text", "hi", none⟩).1.conversations.length) :=
  ⟨by decide, by decide, by decide, by decide,
   C2_theorem [] emptyDB 1 2 10 11 (by decide) (by decide) "hi" "yo" (by decide) (by decide)⟩

/-- C3: the claim says a user with two simultaneous live sessions receives
receive_message on both when a peer sends to them.  connectedUsers maps a
user to a single socketId, so user 2's second connection (socket 11)
overwrites the first (socket 10): the send from user 1 emits
receive_message to socket 11 and nothing to socket 10. -/
theorem C3_counterexample :
    receivesOn (sendMessageHandler
        (connectionHandler (connectionHandler [] 2 10).1 2 11).1
        emptyDB 1 5 ⟨some 2, "text", "hi", none⟩).2 11 = true ∧
    receivesOn (sendMessageHandler
        (connectionHandler (connectionHandler [] 2 10).1 2 11).1
        emptyDB 1 5 ⟨some 2, "text", "hi", none⟩).2 10 = false := by
  decide

/-- C3 (amended): when a user connects twice (sockets s1 then s2), the
connection registry keeps only the most recent socket, and a valid
send_message addressed to that user emits receive_message to s2 only: the
earlier session s1 receives no receive_message. -/
theorem C3_theorem (cu : ConnectedUsers) (db : DB) (a sa b s1 s2 : Nat)
    (hss : s1 ≠ s2) (content : String) (hc : content ≠ "") :
    receivesOn (sendMessageHandler
        (connectionHandler (connectionHandler cu b s1).1 b s2).1
        db a sa ⟨some b, "text", content, none⟩).2 s2 = true ∧
    receivesOn (sendMessageHandler
        (connectionHandler (connectionHandler cu b s1).1 b s2).1
        db a sa ⟨some b, "text", content, none⟩).2 s1 = false := by
  have ht : (("text" : String) == "") = false := by decide
  have hc' : (content == "") = false := beq_eq_false_iff_ne.mpr hc
  have hta : ("text" : String) ∈ allowedTypes := by decide
  have hcu : mapGet (connectionHandler (connectionHandler cu b s1).1 b s2).1 b = some s2 := by
    simp only [connectionHandler]
    exact mapGet_mapSet_self _ b s2
  have hne : (s2 == s1) = false := beq_eq_false_iff_ne.mpr (Ne.symm hss)
  cases hfc : findConvByPair db a b with
  | none =>
    rw [sendMessage_pair_none_online _ db a sa b s2 _ _ ht hc' hta hfc hcu]
    simp [receivesOn, hne]
  | some conv =>
    rw [sendMessage_pair_some_online _ db a sa b s2 conv _ _ ht hc' hta hfc hcu]
    simp [receivesOn, hne]

/-- C3 witness: two connections of user 2 on sockets 10 and 11, then a send
from user 1. -/
theorem C3_witness :
    (10 : Nat) ≠ 11 ∧ ("hi" : String) ≠ "" ∧
    (receivesOn (sendMessageHandler
        (connectionHandler (connectionHandler [] 2 10).1 2 11).1
        (⟨[], [], [], 5, 7⟩ : DB) 1 5 ⟨some 2, "text", "hi", none⟩).2 11 = true ∧
    receivesOn (sendMessageHandler
        (connectionHandler (connectionHandler [] 2 10).1 2 11).1
        (⟨[], [], [], 5, 7⟩ : DB) 1 5 ⟨some 2, "text", "hi", none⟩).2 10 = false) :=
  ⟨by decide, by decide, C3_theorem [] ⟨[], [], [], 5, 7⟩ 1 5 2 10 11 (by decide) "hi" (by decide)⟩

/-- C4: the claim says the online receiver gets receive_message with status
delivered.  The handler emits receive_message before it advances the
persisted status, so the receiver's copy carries status sent (the sender's
message_sent confirmation does carry delivered). -/
theorem C4_counterexample :
    receiveStatuses (sendMessageHandler [(2, 20)] emptyDB 1 10
        ⟨some 2, "text", "hi", none⟩).2 = [Status.sent] ∧
    Status.sent ≠ Status.delivered := by
  decide

/-- C4 (amended): for a valid text send from a to b while b is connected,
the emitted events are exactly a receive_message to b's socket carrying the
message with status sent, followed by a message_sent to the sender carrying
the same message id with status delivered. -/
theorem C4_theorem (cu : ConnectedUsers) (db : DB) (a sa b rsid : Nat)
    (hcu : mapGet cu b = some rsid) (content : String) (hc : content ≠ "") :
    ∃ cid mid,
      (sendMessageHandler cu db a sa ⟨some b, "text", content, none⟩).2
        = [Event.receive_message rsid ⟨mid, cid, a, b, "text", content, Status.sent⟩ cid,
           Event.message_sent sa ⟨mid, cid, a, b, "text", content, Status.delivered⟩ cid] := by
  have ht : (("text" : String) == "") = false := by decide
  have hc' : (content == "") = false := beq_eq_false_iff_ne.mpr hc
  have hta : ("text" : String) ∈ allowedTypes := by decide
  cases hfc : findConvByPair db a b with
  | none =>
    exact ⟨db.nextConvId, db.nextMsgId,
      by rw [sendMessage_pair_none_online cu db a sa b rsid _ _ ht hc' hta hfc hcu]⟩
  | some conv =>
    exact ⟨conv.id, db.nextMsgId,
      by rw [sendMessage_pair_some_online cu db a sa b rsid conv _ _ ht hc' hta hfc hcu]⟩

/-- C4 witness: user 2 online on socket 20, user 1 sends "hi". -/
theorem C4_witness :
    mapGet [(2, 20)] 2 = some 20 ∧ ("hi" : String) ≠ "" ∧
    (∃ cid mid,
      (sendMessageHandler [(2, 20)] emptyDB 1 10 ⟨some 2, "text", "hi", none⟩).2
        = [Event.receive_message 20 ⟨mid, cid, 1, 2, "text", "hi", Status.sent⟩ cid,
           Event.message_sent 10 ⟨mid, cid, 1, 2, "text", "hi", Status.delivered⟩ cid]) :=
  ⟨by decide, by decide, C4_theorem [(2, 20)] emptyDB 1 10 2 20 (by decide) "hi" (by decide)⟩

/-- C9: if the receiver has no live session at send time, the persisted
message keeps status sent, the only emitted event is the sender's
message_sent confirmation carrying status sent (in particular no
receive_message to anyone), and a later (re)connection emits only a
user_online broadcast — no stored message is pushed over this channel. -/
theorem C9_theorem (cu : ConnectedUsers) (db : DB) (a sa b : Nat)
    (hwfm : ∀ x ∈ db.messages, x.id < db.nextMsgId)
    (hcu : mapGet cu b = none) (content : String) (hc : content ≠ "") :
    (∃ cid,
      (sendMessageHandler cu db a sa ⟨some b, "text", content, none⟩).2
        = [Event.message_sent sa ⟨db.nextMsgId, cid, a, b, "text", content, Status.sent⟩ cid] ∧
      findMsgById (sendMessageHandler cu db a sa ⟨some b, "text", content, none⟩).1 db.nextMsgId
        = some ⟨db.nextMsgId, cid, a, b, "text", content, Status.sent⟩) ∧
    ∀ (cu2 : ConnectedUsers) (uid sid : Nat),
      (connectionHandler cu2 uid sid).2 = [Event.user_online uid] := by
  have ht : (("text" : String) == "") = false := by decide
  have hc' : (content == "") = false := beq_eq_false_iff_ne.mpr hc
  have hta : ("text" : String) ∈ allowedTypes := by decide
  have hpre : ∀ x ∈ db.messages, ((fun x : Message => x.id == db.nextMsgId) x) = false :=
    fun x hx => beq_eq_false_iff_ne.mpr (Nat.ne_of_lt (hwfm x hx))
  refine ⟨?_, fun cu2 uid sid => rfl⟩
  cases hfc : findConvByPair db a b with
  | none =>
    refine ⟨db.nextConvId, ?_, ?_⟩
    · rw [sendMessage_pair_none_offline cu db a sa b _ _ ht hc' hta hfc hcu]
    · rw [sendMessage_pair_none_offline cu db a sa b _ _ ht hc' hta hfc hcu]
      simp only [findMsgById]
      rw [find?_append_none _ _ _ hpre]
      exact List.find?_cons_of_pos _ (by simp)
  | some conv =>
    refine ⟨conv.id, ?_, ?_⟩
    · rw [sendMessage_pair_some_offline cu db a sa b conv _ _ ht hc' hta hfc hcu]
    · rw [sendMessage_pair_some_offline cu db a sa b conv _ _ ht hc' hta hfc hcu]
      simp only [findMsgById]
      rw [find?_append_none _ _ _ hpre]
      exact List.find?_cons_of_pos _ (by simp)

/-- C9 witness: the offline-receiver send from the empty store. -/
theorem C9_witness :
    (∀ x ∈ emptyDB.messages, x.id < emptyDB.nextMsgId) ∧
    mapGet [] 2 = none ∧ ("hi" : String) ≠ "" ∧
    ((∃ cid,
      (sendMessageHandler [] emptyDB 1 10 ⟨some 2, "text", "hi", none⟩).2
        = [Event.message_sent 10 ⟨emptyDB.nextMsgId, cid, 1, 2, "text", "hi", Status.sent⟩ cid] ∧
      findMsgById (sendMessageHandler [] emptyDB 1 10 ⟨some 2, "text", "hi", none⟩).1
          emptyDB.nextMsgId
        = some ⟨emptyDB.nextMsgId, cid, 1, 2, "text", "hi", Status.sent⟩) ∧
    ∀ (cu2 : ConnectedUsers) (uid sid : Nat),
      (connectionHandler cu2 uid sid).2 = [Event.user_online uid]) :=
  ⟨by decide, by decide, by decide,
   C9_theorem [] emptyDB 1 10 2 (by decide) (by decide) "hi" (by decide)⟩

/-- C5: the claim says an invalid payload produces message_error and no
state is created.  A type outside the allowed set passes the falsy check
(`!type` only), so the conversation is still looked up or created before
message creation fails: from the empty store, a send with type "video"
emits message_error yet leaves one newly created Conversation row. -/
theorem C5_counterexample :
    (sendMessageHandler [] emptyDB 1 10 ⟨some 2, "video", "x", none⟩).2
      = [Event.message_error 10 "Failed to send message"] ∧
    emptyDB.conversations.length = 0 ∧
    (sendMessageHandler [] emptyDB 1 10 ⟨some 2, "video", "x", none⟩).1.conversations.length
      = 1 := by
  decide

/-- C5 (amended): a send_message with missing receiverId or empty
type/content is rejected with message_error and no state change; a
send_message whose type is non-empty but outside {text, image, gif,
sticker} also yields message_error and creates no Message, but when no
conversation exists for the pair a new Conversation row has already been
created by the time message creation fails. -/
theorem C5_theorem (cu : ConnectedUsers) (db : DB) (a sa b : Nat) (t content : String)
    (htne : t ≠ "") (hta : t ∉ allowedTypes) (hc : content ≠ "")
    (hfc : findConvByPair db a b = none) :
    sendMessageHandler cu db a sa ⟨none, t, content, none⟩
      = (db, [Event.message_error sa "Missing required fields"]) ∧
    sendMessageHandler cu db a sa ⟨some b, t, "", none⟩
      = (db, [Event.message_error sa "Missing required fields"]) ∧
    (sendMessageHandler cu db a sa ⟨some b, t, content, none⟩).2
      = [Event.message_error sa "Failed to send message"] ∧
    (sendMessageHandler cu db a sa ⟨some b, t, content, none⟩).1.messages = db.messages ∧
    (sendMessageHandler cu db a sa ⟨some b, t, content, none⟩).1.conversations
      = db.conversations ++ [⟨db.nextConvId, [a, b], none, []⟩] := by
  have ht' : (t == "") = false := beq_eq_false_iff_ne.mpr htne
  have hc' : (content == "") = false := beq_eq_false_iff_ne.mpr hc
  refine ⟨rfl, ?_, ?_, ?_, ?_⟩
  · simp [sendMessageHandler]
  · simp [sendMessageHandler, ht', hc', hfc, hta]
  · simp [sendMessageHandler, ht', hc', hfc, hta]
  · simp [sendMessageHandler, ht', hc', hfc, hta]

/-- C5 witness: the amended theorem at type "video" from the empty store. -/
theorem C5_witness :
    ("video" : String) ≠ "" ∧ ("video" : String) ∉ allowedTypes ∧ ("x" : String) ≠ "" ∧
    findConvByPair emptyDB 1 2 = none ∧
    (sendMessageHandler [] emptyDB 1 10 ⟨none, "video", "x", none⟩
      = (emptyDB, [Event.message_error 10 "Missing required fields"]) ∧
    sendMessageHandler [] emptyDB 1 10 ⟨some 2, "video", "", none⟩
      = (emptyDB, [Event.message_error 10 "Missing required fields"]) ∧
    (sendMessageHandler [] emptyDB 1 10 ⟨some 2, "video", "x", none⟩).2
      = [Event.message_error 10 "Failed to send message"] ∧
    (sendMessageHandler [] emptyDB 1 10 ⟨some 2, "video", "x", none⟩).1.messages
      = emptyDB.messages ∧
    (sendMessageHandler [] emptyDB 1 10 ⟨some 2, "video", "x", none⟩).1.conversations
      = emptyDB.conversations ++ [⟨emptyDB.nextConvId, [1, 2], none, []⟩]) :=
  ⟨by decide, by decide, by decide, by decide,
   C5_theorem [] emptyDB 1 10 2 "video" "x" (by decide) (by decide) (by decide) (by decide)⟩

/-- C6: the claim says accepting a pending request reuses an existing
Conversation between the pair.  acceptRequest unconditionally creates a new
Conversation: on a store already holding a conversation between users 1 and
2 and a pending request, accepting yields two conversations for the pair. -/
theorem C6_counterexample :
    pairConvCount exRequestDB 1 2 = 1 ∧
    (acceptRequest exRequestDB 2 0).2 = HttpRes.success 200 "Request accepted successfully" ∧
    pairConvCount (acceptRequest exRequestDB 2 0).1 1 2 = 2 := by
  decide

/-- C6 (amended): accepting a pending ChatRequest (by its receiver) always
appends one new Conversation between the pair; when one already exists it
is not reused — the pair's conversation count increases by one. -/
theorem C6_theorem (db : DB) (uid rid : Nat) (r : ChatRequest)
    (hr : db.requests.find? (fun x => x.id == rid) = some r)
    (hrecv : r.receiver = uid) (hpend : r.status = ReqStatus.pending) :
    (acceptRequest db uid rid).1.conversations
      = db.conversations ++ [⟨db.nextConvId, [r.sender, r.receiver], none, []⟩] ∧
    pairConvCount (acceptRequest db uid rid).1 r.sender r.receiver
      = pairConvCount db r.sender r.receiver + 1 := by
  have h1 : (r.receiver == uid) = true := beq_iff_eq.mpr hrecv
  have h2 : (r.status == ReqStatus.pending) = true := beq_iff_eq.mpr hpend
  have hconvs : (acceptRequest db uid rid).1.conversations
      = db.conversations ++ [⟨db.nextConvId, [r.sender, r.receiver], none, []⟩] := by
    simp [acceptRequest, hr, h1, h2]
  refine ⟨hconvs, ?_⟩
  simp only [pairConvCount, hconvs, List.countP_append]
  simp

/-- C6 witness: the amended theorem on exRequestDB, which already holds a
conversation between users 1 and 2. -/
theorem C6_witness :
    exRequestDB.requests.find? (fun x => x.id == 0)
      = some ⟨0, 1, 2, ReqStatus.pending⟩ ∧
    ((acceptRequest exRequestDB 2 0).1.conversations
      = exRequestDB.conversations ++ [⟨exRequestDB.nextConvId, [1, 2], none, []⟩] ∧
    pairConvCount (acceptRequest exRequestDB 2 0).1 1 2
      = pairConvCount exRequestDB 1 2 + 1) :=
  ⟨by decide, C6_theorem exRequestDB 2 0 ⟨0, 1, 2, ReqStatus.pending⟩ (by decide) rfl rfl⟩

theorem forall2_map {α β : Type} (f : α → β) (P : α → β → Prop) (l : List α)
    (h : ∀ x ∈ l, P x (f x)) : List.Forall₂ P l (l.map f) := by
  induction l with
  | nil => exact List.Forall₂.nil
  | cons a t ih =>
    exact List.Forall₂.cons (h a (by simp))
      (ih fun x hx => h x (List.mem_cons_of_mem _ hx))

theorem readCond_iff (uid cid : Nat) (m : Message) :
    (m.conversationId == cid && m.receiver == uid &&
      (m.status == Status.sent || m.status == Status.delivered)) = true
    ↔ (m.conversationId = cid ∧ m.receiver = uid ∧
       (m.status = Status.sent ∨ m.status = Status.delivered)) := by
  simp [and_assoc]

theorem readTransition_of_map (uid cid : Nat) (m : Message) :
    readTransition uid cid m
      (if m.conversationId == cid && m.receiver == uid &&
          (m.status == Status.sent || m.status == Status.delivered)
       then { m with status := Status.read } else m) := by
  unfold readTransition
  by_cases h : m.conversationId = cid ∧ m.receiver = uid ∧
      (m.status = Status.sent ∨ m.status = Status.delivered)
  · rw [if_pos h, if_pos ((readCond_iff uid cid m).mpr h)]
  · rw [if_neg h, if_neg (fun hb => h ((readCond_iff uid cid m).mp hb))]

theorem deliveredCond_iff (uid cid : Nat) (m : Message) :
    (m.conversationId == cid && m.receiver == uid && m.status == Status.sent) = true
    ↔ (m.conversationId = cid ∧ m.receiver = uid ∧ m.status = Status.sent) := by
  simp [and_assoc]

theorem deliveredTransition_of_map (uid cid : Nat) (m : Message) :
    deliveredTransition uid cid m
      (if m.conversationId == cid && m.receiver == uid && m.status == Status.sent
       then { m with status := Status.delivered } else m) := by
  unfold deliveredTransition
  by_cases h : m.conversationId = cid ∧ m.receiver = uid ∧ m.status = Status.sent
  · rw [if_pos h, if_pos ((deliveredCond_iff uid cid m).mpr h)]
  · rw [if_neg h, if_neg (fun hb => h ((deliveredCond_iff uid cid m).mp hb))]

/-- C7: the claim says both the socket message_read (conversationId form)
and the HTTP mark-read endpoint reset the caller's unread counter to 0.
The socket handler transitions the messages but never touches the
conversation: on exUnreadDB user 2's counter stays 3 (and the message does
become read, so the operation did run). -/
theorem C7_counterexample :
    (messageReadHandler [] exUnreadDB 2 ⟨none, some 0⟩).1.conversations
      = exUnreadDB.conversations ∧
    (findConvById (messageReadHandler [] exUnreadDB 2 ⟨none, some 0⟩).1 0).map
      (fun c => unreadGet c.unreadCount 2) = some 3 ∧
    (findMsgById (messageReadHandler [] exUnreadDB 2 ⟨none, some 0⟩).1 0).map Message.status
      = some Status.read := by
  decide

/-- C7 (amended): marking a conversation read transitions exactly the
messages received by the caller with status sent or delivered (every other
message is untouched) in both entry points; the HTTP endpoint additionally
resets the caller's unread counter to 0, while the socket message_read
conversationId branch leaves the conversation rows — and thus the unread
counter — unchanged. -/
theorem C7_theorem (cu : ConnectedUsers) (db : DB) (uid cid : Nat) (conv : Conversation)
    (hconv : findConvById db cid = some conv)
    (hpart : conv.participants.contains uid = true) :
    List.Forall₂ (readTransition uid cid) db.messages
      (markMessagesAsRead db uid cid).1.messages ∧
    (findConvById (markMessagesAsRead db uid cid).1 cid).map
      (fun c => unreadGet c.unreadCount uid) = some 0 ∧
    (markMessagesAsRead db uid cid).2.1 = HttpRes.success 200 "Messages marked as read" ∧
    List.Forall₂ (readTransition uid cid) db.messages
      (messageReadHandler cu db uid ⟨none, some cid⟩).1.messages ∧
    (messageReadHandler cu db uid ⟨none, some cid⟩).1.conversations = db.conversations := by
  have hcid : conv.id = cid := find?_key_eq Conversation.id db.conversations cid conv hconv
  have hp : uid ∈ conv.participants := by simpa using hpart
  have h1 : (markMessagesAsRead db uid cid).1.messages
      = db.messages.map (fun m =>
          if m.conversationId == cid && m.receiver == uid &&
             (m.status == Status.sent || m.status == Status.delivered)
          then { m with status := Status.read } else m) := by
    simp [markMessagesAsRead, hconv, hp, updateConv]
  have hmm : (markMessagesAsRead db uid cid).1.conversations
      = db.conversations.map (fun x => if x.id == conv.id then
          { conv with unreadCount := mapSet conv.unreadCount uid 0 } else x) := by
    simp [markMessagesAsRead, hconv, hp, updateConv]
  have h4 : (messageReadHandler cu db uid ⟨none, some cid⟩).1.messages
      = db.messages.map (fun m =>
          if m.conversationId == cid && m.receiver == uid &&
             (m.status == Status.sent || m.status == Status.delivered)
          then { m with status := Status.read } else m) := by
    simp [messageReadHandler]
  refine ⟨?_, ?_, ?_, ?_, ?_⟩
  · rw [h1]
    exact forall2_map _ _ _ (fun m _ => readTransition_of_map uid cid m)
  · have hfind : findConvById (markMessagesAsRead db uid cid).1 cid
        = some { conv with unreadCount := mapSet conv.unreadCount uid 0 } := by
      simp only [findConvById, hmm]
      exact find?_map_update Conversation.id db.conversations cid conv
        { conv with unreadCount := mapSet conv.unreadCount uid 0 } hconv hcid
    rw [hfind]
    simp [unreadGet, mapGet_mapSet_self]
  · simp [markMessagesAsRead, hconv, hp]
  · rw [h4]
    exact forall2_map _ _ _ (fun m _ => readTransition_of_map uid cid m)
  · rfl

/-- C7 witness: user 2 marking conversation 0 of exUnreadDB read via both
entry points. -/
theorem C7_witness :
    findConvById exUnreadDB 0 = some ⟨0, [1, 2], some 0, [(2, 3)]⟩ ∧
    (⟨0, [1, 2], some 0, [(2, 3)]⟩ : Conversation).participants.contains 2 = true ∧
    (List.Forall₂ (readTransition 2 0) exUnreadDB.messages
      (markMessagesAsRead exUnreadDB 2 0).1.messages ∧
    (findConvById (markMessagesAsRead exUnreadDB 2 0).1 0).map
      (fun c => unreadGet c.unreadCount 2) = some 0 ∧
    (markMessagesAsRead exUnreadDB 2 0).2.1 = HttpRes.success 200 "Messages marked as read" ∧
    List.Forall₂ (readTransition 2 0) exUnreadDB.messages
      (messageReadHandler [] exUnreadDB 2 ⟨none, some 0⟩).1.messages ∧
    (messageReadHandler [] exUnreadDB 2 ⟨none, some 0⟩).1.conversations
      = exUnreadDB.conversations) :=
  ⟨by decide, by decide,
   C7_theorem [] exUnreadDB 2 0 ⟨0, [1, 2], some 0, [(2, 3)]⟩ (by decide) (by decide)⟩

/-- C8: the claim says an event referencing a conversation the caller is not
a participant of yields an error and no mutation.  The socket send_message
path performs no participant check: user 3 (not in conversation 0, whose
participants are 1 and 2) supplies conversationId 0 and the message is
created with no error event. -/
theorem C8_counterexample :
    ((sendMessageHandler [] exReadDB 3 30 ⟨some 2, "text", "intruder", some 0⟩).2.all
      (fun e => !(isMessageError e))) = true ∧
    (sendMessageHandler [] exReadDB 3 30 ⟨some 2, "text", "intruder", some 0⟩).1.messages.length
      = exReadDB.messages.length + 1 := by
  decide

/-- C8 (amended): the HTTP endpoints enforce participation — getMessages and
the mark-read endpoint return 403 with no state change when the caller is
not a participant — but the socket paths do not: a send_message supplying
the conversationId of a conversation the sender does not belong to creates
the message anyway with no error event, and a single-message message_read by
a user who is not the message's receiver still sets the status to read. -/
theorem C8_theorem (cu : ConnectedUsers) (db : DB) (uid usock cid mid b : Nat)
    (conv : Conversation) (m : Message) (content : String)
    (hconv : findConvById db cid = some conv)
    (hnp : conv.participants.contains uid = false)
    (hmsg : findMsgById db mid = some m) (hmrecv : m.receiver ≠ uid)
    (hc : content ≠ "") :
    getMessages db uid cid
      = (db, HttpRes.failure 403 "Not authorized to access these messages", []) ∧
    markMessagesAsRead db uid cid = (db, HttpRes.failure 403 "Not authorized", []) ∧
    (sendMessageHandler cu db uid usock ⟨some b, "text", content, some cid⟩).1.messages.length
      = db.messages.length + 1 ∧
    (∀ e ∈ (sendMessageHandler cu db uid usock ⟨some b, "text", content, some cid⟩).2,
      isMessageError e = false) ∧
    (findMsgById (messageReadHandler cu db uid ⟨some mid, none⟩).1 mid).map Message.status
      = some Status.read := by
  have hc' : (content == "") = false := beq_eq_false_iff_ne.mpr hc
  have ht : (("text" : String) == "") = false := by decide
  have hnp' : uid ∉ conv.participants := by simpa using hnp
  refine ⟨?_, ?_, ?_, ?_, ?_⟩
  · simp [getMessages, hconv, hnp']
  · simp [markMessagesAsRead, hconv, hnp']
  · cases hcu : mapGet cu b with
    | none => simp [sendMessageHandler, ht, hc', hconv, hcu, updateConv, allowedTypes]
    | some rsid =>
      simp [sendMessageHandler, ht, hc', hconv, hcu, updateConv, updateMsg, allowedTypes]
  · cases hcu : mapGet cu b with
    | none =>
      simp [sendMessageHandler, ht, hc', hconv, hcu, updateConv, allowedTypes, isMessageError]
    | some rsid =>
      simp [sendMessageHandler, ht, hc', hconv, hcu, updateConv, updateMsg, allowedTypes,
        isMessageError]
  · have h' : db.messages.find? (fun x => x.id == mid) = some m := hmsg
    have hmid : m.id = mid := find?_key_eq Message.id db.messages mid m h'
    have hfind : findMsgById (messageReadHandler cu db uid ⟨some mid, none⟩).1 mid
        = some { m with status := Status.read } := by
      simp only [messageReadHandler, hmsg]
      simp only [findMsgById, updateMsg]
      exact find?_map_update Message.id db.messages mid m
        { m with status := Status.read } h' hmid
    rw [hfind]
    rfl

/-- C8 witness: user 3 sending into conversation 0 of exReadDB (participants
1 and 2) and marking its message read. -/
theorem C8_witness :
    findConvById exReadDB 0 = some ⟨0, [1, 2], some 0, []⟩ ∧
    (⟨0, [1, 2], some 0, []⟩ : Conversation).participants.contains 3 = false ∧
    findMsgById exReadDB 0 = some ⟨0, 0, 1, 2, "text", "hi", Status.read⟩ ∧
    (⟨0, 0, 1, 2, "text", "hi", Status.read⟩ : Message).receiver ≠ 3 ∧
    (getMessages exReadDB 3 0
      = (exReadDB, HttpRes.failure 403 "Not authorized to access these messages", []) ∧
    markMessagesAsRead exReadDB 3 0 = (exReadDB, HttpRes.failure 403 "Not authorized", []) ∧
    (sendMessageHandler [] exReadDB 3 30 ⟨some 2, "text", "intruder", some 0⟩).1.messages.length
      = exReadDB.messages.length + 1 ∧
    (∀ e ∈ (sendMessageHandler [] exReadDB 3 30 ⟨some 2, "text", "intruder", some 0⟩).2,
      isMessageError e = false) ∧
    (findMsgById (messageReadHandler [] exReadDB 3 ⟨some 0, none⟩).1 0).map Message.status
      = some Status.read) :=
  ⟨by decide, by decide, by decide, by decide,
   C8_theorem [] exReadDB 3 30 0 0 2 ⟨0, [1, 2], some 0, []⟩
     ⟨0, 0, 1, 2, "text", "hi", Status.read⟩ "intruder"
     (by decide) (by decide) (by decide) (by decide) (by decide)⟩

/-- C10: retrieving message history by a participant is not read-only: every
message of the conversation received by the caller with status sent is
advanced to delivered, every other message is untouched, the call succeeds,
and no socket event (in particular no message_status_updated) is emitted. -/
theorem C10_theorem (db : DB) (uid cid : Nat) (conv : Conversation)
    (hconv : findConvById db cid = some conv)
    (hpart : conv.participants.contains uid = true) :
    List.Forall₂ (deliveredTransition uid cid) db.messages
      (getMessages db uid cid).1.messages ∧
    (getMessages db uid cid).2.1 = HttpRes.success 200 "Messages retrieved successfully" ∧
    (getMessages db uid cid).2.2 = [] := by
  have hp : uid ∈ conv.participants := by simpa using hpart
  have h1 : (getMessages db uid cid).1.messages
      = db.messages.map (fun m =>
          if m.conversationId == cid && m.receiver == uid && m.status == Status.sent
          then { m with status := Status.delivered } else m) := by
    simp [getMessages, hconv, hp]
  refine ⟨?_, ?_, ?_⟩
  · rw [h1]
    exact forall2_map _ _ _ (fun m _ => deliveredTransition_of_map uid cid m)
  · simp [getMessages, hconv, hp]
  · simp [getMessages, hconv, hp]

/-- C10 witness: user 2 retrieving conversation 0 of exUnreadDB, whose one
message (receiver 2, status sent) is advanced to delivered. -/
theorem C10_witness :
    findConvById exUnreadDB 0 = some ⟨0, [1, 2], some 0, [(2, 3)]⟩ ∧
    (⟨0, [1, 2], some 0, [(2, 3)]⟩ : Conversation).participants.contains 2 = true ∧
    (List.Forall₂ (deliveredTransition 2 0) exUnreadDB.messages
      (getMessages exUnreadDB 2 0).1.messages ∧
    (getMessages exUnreadDB 2 0).2.1 = HttpRes.success 200 "Messages retrieved successfully" ∧
    (getMessages exUnreadDB 2 0).2.2 = []) :=
  ⟨by decide, by decide,
   C10_theorem exUnreadDB 2 0 ⟨0, [1, 2], some 0, [(2, 3)]⟩ (by decide) (by decide)⟩
